import Mathlib

/-!
Shallow embedding of `src/pyroscope_backends/src/rbspy.rs`: the rbspy
profiling-backend lifecycle controller, the folded-stack aggregator and
formatter, and the two-stage report writer.

Modelling conventions, stated once:
* Rust `Result<T, BackendError>` is `Except String T` (the error carries the
  message passed to `BackendError::new`).
* A channel `Receiver<T>` is modelled by the list of items currently queued
  in it; `try_iter` drains that list without blocking.
* The external `rbspy::sampler::Sampler` is opaque: we record its
  constructor arguments; `Sampler::start` runs on the sampler's side, so its
  result is passed to `Rbspy.start` as an explicit parameter; `Sampler::stop`
  has no effect visible to the controller.
* Byte buffers (`Vec<u8>`) carry only UTF-8 text produced by `format!`, so
  they are modelled as `String`; appending byte slices is string append.
* The `HashMap<String, usize>` of `RbspyFormatter` is modelled as an
  association list in insertion order; the source's iteration order is the
  hash map's arbitrary order, which the spec declares cosmetic, so the
  insertion-order determinization is faithful up to line ordering.
-/

/-- Modelled from the spec: `State` comes from `super::types`, which is not
under `src/`. The spec's BackendState enum {Uninitialized, Ready, Running};
Uninitialized is the only legal initial state. -/
inductive State where
  | Uninitialized
  | Ready
  | Running
deriving DecidableEq, Repr

/-- Source `rbspy::StackFrame`: relative source path, line number, display name,
optional absolute path (unused by the formatter). `lineno` is a `u32` on
which no arithmetic is performed, so `Nat` suffices. -/
structure StackFrame where
  relative_path : String
  lineno : Nat
  name : String
  absolute_path : Option String
deriving DecidableEq, Repr

/-- Source `rbspy::StackTrace`, reduced to what this code reads from it:
`stack.iter()` yields the frames in their native order (leaf first,
root last). -/
structure StackTrace where
  trace : List StackFrame
deriving DecidableEq, Repr

/-- Source `RbspyConfig`: process id, sampling rate, lock flag, optional time
limit, subprocess flag. `pid` is `Option<i32>`, `sample_rate` a `u32`,
`time_limit` an optional duration (modelled as an abstract `Nat`). -/
structure RbspyConfig where
  pid : Option Int
  sample_rate : Nat
  lock_process : Bool
  time_limit : Option Nat
  with_subprocesses : Bool
deriving DecidableEq, Repr

/-- Source `impl Default for RbspyConfig`. -/
def RbspyConfig.defaultConfig : RbspyConfig :=
  { pid := none, sample_rate := 100, lock_process := false,
    time_limit := none, with_subprocesses := false }

/-- Source `RbspyConfig::new(pid)`. -/
def RbspyConfig.new (pid : Int) : RbspyConfig :=
  { RbspyConfig.defaultConfig with pid := some pid }

/-- The external `rbspy::sampler::Sampler`, opaque to this core: only the
constructor arguments of `Sampler::new` are recorded. -/
structure Sampler where
  pid : Int
  sample_rate : Nat
  lock_process : Bool
  time_limit : Option Nat
  with_subprocesses : Bool
deriving DecidableEq, Repr

/-- Source `Sampler::new`. -/
def Sampler.new (pid : Int) (sample_rate : Nat) (lock_process : Bool)
    (time_limit : Option Nat) (with_subprocesses : Bool) : Sampler :=
  ⟨pid, sample_rate, lock_process, time_limit, with_subprocesses⟩

/-- One item of the sampler's error channel:
`std::result::Result<(), anyhow::Error>`. -/
abbrev SamplerStatus := Except String Unit

/-- The `Rbspy` backend struct: state, configuration, optional sampler
handle, and the two optional channel receivers, each receiver modelled by
its currently queued contents. -/
structure Rbspy where
  state : State
  config : RbspyConfig
  sampler : Option Sampler
  stack_receiver : Option (List StackTrace)
  error_receiver : Option (List SamplerStatus)

/-- Source `Rbspy::new(config)`. -/
def Rbspy.new (config : RbspyConfig) : Rbspy :=
  { sampler := none, stack_receiver := none, error_receiver := none,
    state := State.Uninitialized, config := config }

/-- Source `Backend::get_state`. -/
def Rbspy.get_state (b : Rbspy) : State := b.state

/-- Source `Backend::spy_name`. -/
def Rbspy.spy_name (_ : Rbspy) : Except String String := .ok "rbspy"

/-- Source `Backend::sample_rate`. -/
def Rbspy.sample_rate (b : Rbspy) : Except String Nat :=
  .ok b.config.sample_rate

/-- Source `Rbspy::initialize` (named `init` here because the source's name is a
keyword in Lean). Requires `Uninitialized` and a configured pid; on success
constructs the sampler from the configuration and moves to `Ready`. Returns
the controller after the call together with the call's result, mirroring
`&mut self` plus `Result<()>`. -/
def Rbspy.init (b : Rbspy) : Rbspy × Except String Unit :=
  if b.state ≠ State.Uninitialized then
    (b, .error "Rbspy: Backend is already Initialized")
  else
    match b.config.pid with
    | none => (b, .error "Rbspy: No Process ID Specified")
    | some pid =>
      ({ b with
          sampler := some (Sampler.new pid b.config.sample_rate
            b.config.lock_process b.config.time_limit
            b.config.with_subprocesses),
          state := State.Ready },
        .ok ())

/-- Source `Rbspy::start`. Requires `Ready`. The source creates the two channels
and stores the fresh (hence empty) receivers into `self` before it checks
the sampler handle and before `sampler.start` can fail; `samplerStart` is
the external result of `sampler.start(stack_sender, error_sender)`. -/
def Rbspy.start (b : Rbspy) (samplerStart : Except String Unit) :
    Rbspy × Except String Unit :=
  if b.state ≠ State.Ready then
    (b, .error "Rbspy: Backend is not Ready")
  else
    let b1 := { b with stack_receiver := some [], error_receiver := some [] }
    match b1.sampler with
    | none => (b1, .error "Rbspy: Sampler is not set")
    | some _ =>
      match samplerStart with
      | .error e => (b1, .error e)
      | .ok _ => ({ b1 with state := State.Running }, .ok ())

/-- Source `Rbspy::stop`. Requires `Running`; signals the external sampler
(`sampler.stop()`, no controller-visible effect) and moves to `Ready`.
The channel receivers and their queued contents are untouched. -/
def Rbspy.stop (b : Rbspy) : Rbspy × Except String Unit :=
  if b.state ≠ State.Running then
    (b, .error "Rbspy: Backend is not Running")
  else
    match b.sampler with
    | none => (b, .error "Rbspy: Sampler is not set")
    | some _ => ({ b with state := State.Ready }, .ok ())

/-- Source: the `Display` impl of `StackFrameFormatter`, rendering
`"{relative_path}:{lineno} - {name}"`. -/
def StackFrameFormatter.fmt (f : StackFrame) : String :=
  f.relative_path ++ ":" ++ toString f.lineno ++ " - " ++ f.name

/-- The folded key built by `RbspyFormatter::record`: the trace's frames in
reversed iteration order, each rendered by `StackFrameFormatter`, joined
with `";"`. -/
def foldedKey (stack : StackTrace) : String :=
  String.intercalate ";" (stack.trace.reverse.map StackFrameFormatter.fmt)

/-- Source `RbspyFormatter(HashMap<String, usize>)`, the hash map modelled as an
association list in insertion order. -/
structure RbspyFormatter where
  table : List (String × Nat)

/-- Source `RbspyFormatter::default()`: an empty table. -/
def RbspyFormatter.defaultFormatter : RbspyFormatter := ⟨[]⟩

/-- Source `*map.entry(k).or_insert(0) += 1` on the association list: increment
the existing entry for `k`, or append `(k, 1)`. -/
def entryIncr : List (String × Nat) → String → List (String × Nat)
  | [], k => [(k, 1)]
  | (k', c) :: rest, k =>
      if k' = k then (k', c + 1) :: rest else (k', c) :: entryIncr rest k

/-- Source `RbspyFormatter::record`: fold the trace into its key and bump that
key's count. The source always returns `Ok(())`, so the model is total. -/
def RbspyFormatter.record (f : RbspyFormatter) (stack : StackTrace) :
    RbspyFormatter :=
  ⟨entryIncr f.table (foldedKey stack)⟩

/-- Source `RbspyWriter`: `data` is the internal staging buffer, `buffer` the
caller-visible output buffer it holds a mutable reference to. -/
structure RbspyWriter where
  data : String
  buffer : String

/-- Source `RbspyWriter::new(buffer)`: empty staging buffer over the caller's
buffer. -/
def RbspyWriter.new (buffer : String) : RbspyWriter :=
  { data := "", buffer := buffer }

/-- Source `Write::write` for `RbspyWriter`: append to the staging buffer and
return the number of bytes written; always `Ok`. -/
def RbspyWriter.write (w : RbspyWriter) (buf : String) : RbspyWriter × Nat :=
  ({ w with data := w.data ++ buf }, buf.length)

/-- Source `Write::flush` for `RbspyWriter`: append the staging buffer to the
caller-visible buffer; the staging buffer is not cleared; always `Ok`. -/
def RbspyWriter.flush (w : RbspyWriter) : RbspyWriter :=
  { w with buffer := w.buffer ++ w.data }

/-- Source `RbspyFormatter::complete`: if the table is empty, log and write
nothing; otherwise write one `"{frame} {count}\n"` line per entry
(`writeln!` appends the newline). The writer never fails, so the model is
total. -/
def RbspyFormatter.complete (f : RbspyFormatter) (w : RbspyWriter) :
    RbspyWriter :=
  if f.table.isEmpty then
    w
  else
    f.table.foldl
      (fun w kc => (w.write (kc.1 ++ " " ++ toString kc.2 ++ "\n")).1) w

/-- Source `Rbspy::report`. Requires `Running`; drains the error channel (failures
are logged, never propagated), drains the stack-trace channel into a fresh
formatter, renders through a fresh `RbspyWriter` over a fresh buffer,
flushes, and returns the buffer. -/
def Rbspy.report (b : Rbspy) : Rbspy × Except String String :=
  if b.state ≠ State.Running then
    (b, .error "Rbspy: Backend is not Running")
  else
    match b.error_receiver with
    | none => (b, .error "Rbspy: error receiver is not set")
    | some _ =>
      let b1 := { b with error_receiver := some [] }
      match b1.stack_receiver with
      | none => (b1, .error "Rbspy: StackTrace receiver is not set")
      | some traces =>
        let b2 := { b1 with stack_receiver := some [] }
        let outputter :=
          traces.foldl RbspyFormatter.record RbspyFormatter.defaultFormatter
        let writer := RbspyWriter.new ""
        let writer := outputter.complete writer
        let writer := writer.flush
        (b2, .ok writer.buffer)

/-- Returns `true` iff the result is `Ok`. -/
def exceptOk {α : Type} : Except String α → Bool
  | .ok _ => true
  | .error _ => false

/-- The four lifecycle entry operations of the `Backend` impl. -/
inductive Op where
  | init
  | start
  | stop
  | report
deriving DecidableEq, Repr

/-- The entry state each operation's first check requires. -/
def Op.requiredState : Op → State
  | .init => State.Uninitialized
  | .start => State.Ready
  | .stop => State.Running
  | .report => State.Running

/-- Dispatch an operation on the controller; returns the controller after
the call and whether the call succeeded. `samplerStart` is the external
sampler's answer, consulted only by `start`. -/
def Rbspy.runOp (b : Rbspy) (o : Op) (samplerStart : Except String Unit) :
    Rbspy × Bool :=
  match o with
  | .init => let r := b.init; (r.1, exceptOk r.2)
  | .start => let r := b.start samplerStart; (r.1, exceptOk r.2)
  | .stop => let r := b.stop; (r.1, exceptOk r.2)
  | .report => let r := b.report; (r.1, exceptOk (r.2.map fun _ => ()))

/-! ## Lifecycle state machine -/

/-- C1: for every controller state and every lifecycle operation whose
required entry state differs from the controller's current state, the call
returns an error and the controller is left exactly as it was (no partial
transition). -/
theorem wrongState_rejected (b : Rbspy) (o : Op) (sr : Except String Unit)
    (h : o.requiredState ≠ b.state) : b.runOp o sr = (b, false) := by
  obtain ⟨st, cfg, smp, srx, erx⟩ := b
  cases o <;> cases st <;>
    simp_all [Rbspy.runOp, Rbspy.init, Rbspy.start, Rbspy.stop, Rbspy.report,
      Op.requiredState, exceptOk, Except.map]

/-- Witness for C1: `stop` on a freshly constructed (Uninitialized)
controller fails and changes nothing. -/
theorem wrongState_rejected_witness :
    Op.requiredState Op.stop ≠ (Rbspy.new RbspyConfig.defaultConfig).state ∧
    (Rbspy.new RbspyConfig.defaultConfig).runOp Op.stop (.ok ()) =
      (Rbspy.new RbspyConfig.defaultConfig, false) :=
  ⟨by decide, wrongState_rejected _ _ _ (by decide)⟩

/-- A controller in `Ready` reached through the public API: a fresh
controller with pid 1, successfully initialized. Its receiver fields are
still `none`. -/
def readyBackend : Rbspy := (Rbspy.new (RbspyConfig.new 1)).init.1

/-- C2 counterexample: from the `Ready` controller above, a `start` whose
external sampler fails returns an error, yet `stack_receiver` (and
`error_receiver`) have been rebound from `none` to fresh empty channels —
a field mutation on an erroring call. -/
theorem start_mutates_on_error :
    exceptOk (readyBackend.start (.error "boom")).2 = false ∧
    readyBackend.stack_receiver = none ∧
    (readyBackend.start (.error "boom")).1.stack_receiver = some [] ∧
    (readyBackend.start (.error "boom")).1.error_receiver = some [] := by
  refine ⟨rfl, rfl, rfl, rfl⟩

/-- C2 amended: every operation checks its precondition first, and on any
erroring call `state`, `config` and `sampler` are never mutated (operations
are atomic with respect to state); `init` and `stop` mutate nothing at all
on error; `report` never mutates `stack_receiver` on error. (`start`, after
its state check passes, rebinds the two receiver fields before it can still
fail on a missing or failing sampler; `report` with a missing stack
receiver has already drained the status queue.) -/
theorem error_leaves_core_fields (b : Rbspy) (o : Op)
    (sr : Except String Unit) (h : (b.runOp o sr).2 = false) :
    ((b.runOp o sr).1.state = b.state ∧
      (b.runOp o sr).1.config = b.config ∧
      (b.runOp o sr).1.sampler = b.sampler) ∧
    ((o = Op.init ∨ o = Op.stop) → (b.runOp o sr).1 = b) ∧
    (o = Op.report → (b.runOp o sr).1.stack_receiver = b.stack_receiver) := by
  obtain ⟨st, ⟨pid, rate, lock, tl, sub⟩, smp, srx, erx⟩ := b
  cases o <;> cases st <;> cases pid <;> cases smp <;> cases srx <;>
    cases erx <;> cases sr <;>
    simp_all [Rbspy.runOp, Rbspy.init, Rbspy.start, Rbspy.stop, Rbspy.report,
      exceptOk, Except.map]

/-- Witness for the amended C2: `report` on a fresh (Uninitialized)
controller fails and its state field is untouched. -/
theorem error_leaves_core_fields_witness :
    ((Rbspy.new RbspyConfig.defaultConfig).runOp Op.report (.ok ())).2 =
      false ∧
    ((Rbspy.new RbspyConfig.defaultConfig).runOp Op.report (.ok ())).1.state =
      (Rbspy.new RbspyConfig.defaultConfig).state :=
  ⟨by decide,
    (error_leaves_core_fields (Rbspy.new RbspyConfig.defaultConfig) Op.report
      (.ok ()) (by decide)).1.1⟩

/-- A concrete stack trace delivered by the sampler. -/
def sampleTrace : StackTrace := ⟨[⟨"test.rb", 1, "test", none⟩]⟩

/-- A controller reached through the public API (`new`, `init`, `start`
with a cooperating sampler), after the sampler thread has queued one stack
trace on the stack-trace channel. -/
def runningWithSample : Rbspy :=
  { (((Rbspy.new (RbspyConfig.new 1)).init.1).start (.ok ())).1 with
      stack_receiver := some [sampleTrace] }

/-- C3 counterexample: from a Running controller with one queued sample,
`stop` succeeds and leaves the queued sample in place, but a `report`
before the next `start` does NOT succeed: it fails the `Running` state
check. -/
theorem report_after_stop_fails :
    runningWithSample.stop.2 = .ok () ∧
    runningWithSample.stop.1.stack_receiver = some [sampleTrace] ∧
    runningWithSample.stop.1.report.2 =
      .error "Rbspy: Backend is not Running" := by
  refine ⟨rfl, rfl, rfl⟩

/-- C3 amended: after a successful `stop()` the pending channel contents
are neither drained nor discarded (both receiver fields are exactly as
before), but a `report()` made before the next `start()` fails with the
state error, because `report` requires the Running state which `stop` has
just left. -/
theorem stop_keeps_queue_report_rejected (b : Rbspy) (s : Sampler)
    (h : b.state = State.Running) (hs : b.sampler = some s) :
    b.stop.2 = .ok () ∧
    b.stop.1.stack_receiver = b.stack_receiver ∧
    b.stop.1.error_receiver = b.error_receiver ∧
    b.stop.1.report.2 = .error "Rbspy: Backend is not Running" := by
  simp [Rbspy.stop, Rbspy.report, h, hs]

/-- Witness for the amended C3, at the concrete Running controller with one
queued sample. -/
theorem stop_keeps_queue_report_rejected_witness :
    runningWithSample.state = State.Running ∧
    runningWithSample.sampler = some (Sampler.new 1 100 false none false) ∧
    (runningWithSample.stop.2 = .ok () ∧
      runningWithSample.stop.1.stack_receiver =
        runningWithSample.stack_receiver ∧
      runningWithSample.stop.1.error_receiver =
        runningWithSample.error_receiver ∧
      runningWithSample.stop.1.report.2 =
        .error "Rbspy: Backend is not Running") :=
  ⟨rfl, rfl,
    stop_keeps_queue_report_rejected runningWithSample
      (Sampler.new 1 100 false none false) rfl rfl⟩

/-- C4: with exactly the stack traces T1, T2, T2 queued (T1 and T2 having
distinct folded keys) and the controller Running, `report` succeeds and
the returned buffer is exactly two lines, the first T1's folded key with
count 1, the second T2's folded key with count 2, each line
`<folded-key> <count>` followed by the line terminator. -/
theorem report_two_lines (t1 t2 : StackTrace) (cfg : RbspyConfig)
    (smp : Option Sampler) (errs : List SamplerStatus)
    (hne : foldedKey t1 ≠ foldedKey t2) :
    (Rbspy.report ⟨State.Running, cfg, smp, some [t1, t2, t2], some errs⟩).2 =
      .ok (foldedKey t1 ++ " " ++ "1" ++ "\n" ++
        (foldedKey t2 ++ " " ++ "2" ++ "\n")) := by
  have h1 : (toString (1 : Nat)) = "1" := rfl
  have h2 : (toString (2 : Nat)) = "2" := rfl
  simp [Rbspy.report, RbspyFormatter.record, RbspyFormatter.defaultFormatter,
    RbspyFormatter.complete, RbspyWriter.new, RbspyWriter.write,
    RbspyWriter.flush, entryIncr, hne, h1, h2, String.empty_append]

/-- Witness for C4 at two concrete single-frame traces with distinct
folded keys. -/
theorem report_two_lines_witness :
    foldedKey ⟨[⟨"a.rb", 1, "alpha", none⟩]⟩ ≠
      foldedKey ⟨[⟨"b.rb", 2, "beta", none⟩]⟩ ∧
    (Rbspy.report ⟨State.Running, RbspyConfig.defaultConfig, none,
        some [⟨[⟨"a.rb", 1, "alpha", none⟩]⟩, ⟨[⟨"b.rb", 2, "beta", none⟩]⟩,
          ⟨[⟨"b.rb", 2, "beta", none⟩]⟩],
        some []⟩).2 =
      .ok (foldedKey ⟨[⟨"a.rb", 1, "alpha", none⟩]⟩ ++ " " ++ "1" ++ "\n" ++
        (foldedKey ⟨[⟨"b.rb", 2, "beta", none⟩]⟩ ++ " " ++ "2" ++ "\n")) :=
  ⟨by decide, report_two_lines _ _ _ _ _ (by decide)⟩

/-! ## Formatting and aggregation -/

/-- C5: the folded key is the trace's frames in reversed (root-first)
order, each formatted `{relative_path}:{lineno} - {name}`, joined with
`;`; a trace ordered [leaf, middle, root] renders as `root;middle;leaf`;
the frame (test.rb, 1, test) formats to exactly `test.rb:1 - test`. -/
theorem foldedKey_reverses :
    (∀ stack : StackTrace,
        foldedKey stack =
          String.intercalate ";"
            ((stack.trace.map StackFrameFormatter.fmt).reverse)) ∧
    (∀ leaf mid root : StackFrame,
        foldedKey ⟨[leaf, mid, root]⟩ =
          StackFrameFormatter.fmt root ++ ";" ++ StackFrameFormatter.fmt mid
            ++ ";" ++ StackFrameFormatter.fmt leaf) ∧
    StackFrameFormatter.fmt ⟨"test.rb", 1, "test", none⟩ =
      "test.rb:1 - test" := by
  refine ⟨?_, ?_, by decide⟩
  · intro stack
    simp [foldedKey, List.map_reverse]
  · intro leaf mid root
    simp [foldedKey, String.intercalate, String.intercalate.go]

/-- C6: `report` in the Running state with zero queued stack traces
succeeds and returns the empty buffer — absence of samples is success, not
an error. -/
theorem report_empty_queue (cfg : RbspyConfig) (smp : Option Sampler)
    (errs : List SamplerStatus) :
    (Rbspy.report ⟨State.Running, cfg, smp, some [], some errs⟩).2 =
      .ok "" := by
  simp [Rbspy.report, RbspyFormatter.defaultFormatter,
    RbspyFormatter.complete, RbspyWriter.new, RbspyWriter.flush]

/-- C7: whatever failure statuses are queued on the status channel, a
Running `report` succeeds, returns the same buffer as it would with no
statuses queued at all, and that buffer is the rendering of every queued
stack trace. -/
theorem report_tolerates_status_failures (cfg : RbspyConfig)
    (smp : Option Sampler) (traces : List StackTrace)
    (errs : List SamplerStatus) :
    exceptOk
        (Rbspy.report ⟨State.Running, cfg, smp, some traces, some errs⟩).2 =
      true ∧
    (Rbspy.report ⟨State.Running, cfg, smp, some traces, some errs⟩).2 =
      (Rbspy.report ⟨State.Running, cfg, smp, some traces, some []⟩).2 ∧
    (Rbspy.report ⟨State.Running, cfg, smp, some traces, some errs⟩).2 =
      .ok (((traces.foldl RbspyFormatter.record
          RbspyFormatter.defaultFormatter).complete
            (RbspyWriter.new "")).flush.buffer) :=
  ⟨rfl, rfl, rfl⟩

/-! ## Report writer -/

/-- C8: a write never touches the caller-visible output buffer, and
writing `"hello"` then `"world"` then flushing leaves the output buffer
exactly `"helloworld"`. -/
theorem writer_commit_on_flush :
    (∀ (w : RbspyWriter) (s : String), (w.write s).1.buffer = w.buffer) ∧
    ((((RbspyWriter.new "").write "hello").1.write "world").1.flush.buffer =
      "helloworld") :=
  ⟨fun _ _ => rfl, by decide⟩

/-- Concatenation of a sequence of written chunks: the total bytes staged
by those writes. -/
def concatAll : List String → String
  | [] => ""
  | s :: rest => s ++ concatAll rest

/-- Run a sequence of `RbspyWriter.write` calls. -/
def applyWrites (w : RbspyWriter) (bufs : List String) : RbspyWriter :=
  bufs.foldl (fun w s => (w.write s).1) w

/-- Call `RbspyWriter.flush` `k` times. -/
def flushN : Nat → RbspyWriter → RbspyWriter
  | 0, w => w
  | k + 1, w => flushN k w.flush

/-- The string `s` repeated `k` times. -/
def strRepeat (s : String) : Nat → String
  | 0 => ""
  | k + 1 => s ++ strRepeat s k

theorem applyWrites_buffer (bufs : List String) (w : RbspyWriter) :
    (applyWrites w bufs).buffer = w.buffer := by
  induction bufs generalizing w with
  | nil => rfl
  | cons s rest ih =>
    show (applyWrites ((w.write s).1) rest).buffer = w.buffer
    rw [ih]
    rfl

theorem applyWrites_data (bufs : List String) (w : RbspyWriter) :
    (applyWrites w bufs).data = w.data ++ concatAll bufs := by
  induction bufs generalizing w with
  | nil => simp [applyWrites, concatAll]
  | cons s rest ih =>
    show (applyWrites ((w.write s).1) rest).data = _
    rw [ih]
    simp [RbspyWriter.write, concatAll, String.append_assoc]

theorem flushN_buffer (k : Nat) (w : RbspyWriter) :
    (flushN k w).buffer = w.buffer ++ strRepeat w.data k := by
  induction k generalizing w with
  | zero => simp [flushN, strRepeat]
  | succ k ih =>
    show (flushN k w.flush).buffer = _
    rw [ih]
    simp [RbspyWriter.flush, strRepeat, String.append_assoc]

/-- C10: flush appends the whole staging buffer to the output buffer
without clearing the staging buffer, so after any sequence of writes
totaling bytes `b`, `k` flushes leave the output buffer containing `b`
repeated `k` times — flush is not idempotent. -/
theorem flush_appends_without_clearing :
    (∀ w : RbspyWriter,
        w.flush.data = w.data ∧ w.flush.buffer = w.buffer ++ w.data) ∧
    (∀ (bufs : List String) (k : Nat),
        (flushN k (applyWrites (RbspyWriter.new "") bufs)).buffer =
          strRepeat (concatAll bufs) k) := by
  refine ⟨fun w => ⟨rfl, rfl⟩, fun bufs k => ?_⟩
  rw [flushN_buffer, applyWrites_buffer, applyWrites_data]
  simp [RbspyWriter.new]

/-! ## Lifecycle cycle -/

/-- C9: from Uninitialized with a pid configured (and a cooperating
sampler), the sequence `init`, `start`, `stop`, `start`, `stop` succeeds
at every step, and the state after each step is Ready, Running, Ready,
Running, Ready. -/
theorem lifecycle_cycle (b : Rbspy) (pid : Int)
    (h1 : b.state = State.Uninitialized) (h2 : b.config.pid = some pid) :
    b.init.2 = .ok () ∧
    b.init.1.state = State.Ready ∧
    (b.init.1.start (.ok ())).2 = .ok () ∧
    (b.init.1.start (.ok ())).1.state = State.Running ∧
    (b.init.1.start (.ok ())).1.stop.2 = .ok () ∧
    (b.init.1.start (.ok ())).1.stop.1.state = State.Ready ∧
    ((b.init.1.start (.ok ())).1.stop.1.start (.ok ())).2 = .ok () ∧
    ((b.init.1.start (.ok ())).1.stop.1.start (.ok ())).1.state =
      State.Running ∧
    ((b.init.1.start (.ok ())).1.stop.1.start (.ok ())).1.stop.2 = .ok () ∧
    ((b.init.1.start (.ok ())).1.stop.1.start (.ok ())).1.stop.1.state =
      State.Ready := by
  obtain ⟨st, ⟨p, rate, lock, tl, sub⟩, smp, srx, erx⟩ := b
  simp only at h1 h2
  subst h1
  subst h2
  simp [Rbspy.init, Rbspy.start, Rbspy.stop]

/-- Witness for C9 at a fresh controller configured with pid 1. -/
theorem lifecycle_cycle_witness :
    (Rbspy.new (RbspyConfig.new 1)).state = State.Uninitialized ∧
    (Rbspy.new (RbspyConfig.new 1)).config.pid = some 1 ∧
    (Rbspy.new (RbspyConfig.new 1)).init.2 = .ok () ∧
    (((Rbspy.new (RbspyConfig.new 1)).init.1.start
        (.ok ())).1.stop.1.start (.ok ())).1.stop.1.state = State.Ready :=
  ⟨rfl, rfl, (lifecycle_cycle (Rbspy.new (RbspyConfig.new 1)) 1 rfl rfl).1,
    (lifecycle_cycle (Rbspy.new (RbspyConfig.new 1)) 1 rfl
      rfl).2.2.2.2.2.2.2.2.2⟩
